import Mathlib

/-!
Shallow embedding of `daily-briefing.py`: a daily market-briefing pipeline
that builds a prompt, fetches a JSON briefing from a generative model,
renders it through a template, and delivers it by email with retry.

External effects (the model call, JSON parsing, the template engine and the
SMTP transport) are modelled as explicit stub inputs; the control flow of the
Python functions is translated directly.
-/

set_option maxRecDepth 4000

/-- JSON values, the shape `json.loads` produces.  Numbers are modelled as
rationals. -/
inductive JValue where
  | str (s : String)
  | num (q : ℚ)
  | bool (b : Bool)
  | null
  | arr (xs : List JValue)
  | obj (fields : List (String × JValue))

/-- The outcome of the one OpenAI chat-completions call made by
`get_market_briefing_data`: either the call itself raised, or it returned a
message body.  The body is represented by the result of `json.loads` on it
(`none` when the body is not parseable as JSON). -/
inductive ModelResponse where
  | callFailure (err : String)
  | content (parsed : Option JValue)

/-- Embedding of `get_market_briefing_data` (src lines 128-144): any exception
from the API call or from `json.loads` is caught by the single
`except Exception` handler and re-raised as
`RuntimeError("Failed to fetch dynamic data.")`; a successfully parsed JSON
value is returned as-is, with no validation of any kind. -/
def get_market_briefing_data (resp : ModelResponse) : Except String JValue :=
  match resp with
  | .callFailure _ => .error "Failed to fetch dynamic data."
  | .content none => .error "Failed to fetch dynamic data."
  | .content (some j) => .ok j

/-- Result of `send_email`: how many transport attempts were made, the backoff
waits performed (in order), and on failure the message of the raised error. -/
inductive SendOutcome where
  | sent (attempts : Nat) (waits : List Nat)
  | failed (attempts : Nat) (waits : List Nat) (msg : String)
deriving DecidableEq, Repr

/-- The loop body of `send_email` (src lines 199-211).  `transport i` is the
outcome of the whole SMTP session of attempt `i` (connect, starttls, login,
sendmail): `none` on success, `some e` when it raises.  On failure the code
sleeps `2 ^ attempt` seconds and retries; `fuel` mirrors `range(5)`.
`waits` accumulates the sleeps in reverse. -/
def send_email_loop (transport : Nat → Option String) :
    Nat → Nat → List Nat → SendOutcome
  | 0, attempts, waits =>
      .failed attempts waits.reverse "Failed to send email after retries."
  | fuel + 1, attempt, waits =>
      match transport attempt with
      | none => .sent (attempt + 1) waits.reverse
      | some _ => send_email_loop transport fuel (attempt + 1) (2 ^ attempt :: waits)

/-- Embedding of `send_email` (src lines 192-211): up to 5 attempts, sleeping
`2 ^ attempt` after every failed attempt (including the last), then raising
`RuntimeError("Failed to send email after retries.")`. -/
def send_email (transport : Nat → Option String) : SendOutcome :=
  send_email_loop transport 5 0 []

example : send_email (fun _ => some "boom") =
    .failed 5 [1, 2, 4, 8, 16] "Failed to send email after retries." := by decide

example : send_email (fun n => if n < 4 then some "boom" else none) =
    .sent 5 [1, 2, 4, 8] := by decide

/-! ## Configuration constants (src lines 35-42) -/

def WATCHLIST_UNIVERSE : List String :=
  ["MSFT", "NVDA", "ETN", "LLY", "NOC", "MA", "ANET", "CRWD"]

/-- The source's float literals `182.72`, `530.26`, `139.85`, written as
exact rationals in lowest terms (`mkRat` normalizes) so that the kernel can
evaluate them. -/
def OPEN_POSITIONS : List (String × ℚ) :=
  [("NVDA", mkRat 18272 100), ("MSFT", mkRat 53026 100), ("ANET", mkRat 13985 100)]

example : OPEN_POSITIONS = [("NVDA", 182.72), ("MSFT", 530.26), ("ANET", 139.85)] := by
  norm_num [OPEN_POSITIONS, Rat.mkRat_eq_div]

/-- The source's `RISK_LOWER = 5.5`. -/
def RISK_LOWER : ℚ := mkRat 55 10

/-- The source's `RISK_UPPER = 7.0`. -/
def RISK_UPPER : ℚ := mkRat 70 10

example : RISK_LOWER = 5.5 ∧ RISK_UPPER = 7.0 := by
  norm_num [RISK_LOWER, RISK_UPPER, Rat.mkRat_eq_div]

/-! ## Decimal string helpers (models of CPython formatting) -/

/-- The ASCII digit character for `d < 10`. -/
def digitChar (d : Nat) : Char := Char.ofNat (48 + d)

/-- Decimal digits of `n`, least significant first, with explicit fuel so the
definition is structurally recursive.  `fuel ≥ 1` and `fuel` at least the
number of digits of `n` gives the full digit list. -/
def natDigitsRevAux : Nat → Nat → List Char
  | 0, _ => []
  | fuel + 1, n =>
      if n < 10 then [digitChar n]
      else digitChar (n % 10) :: natDigitsRevAux fuel (n / 10)

/-- Decimal digits of `n`, least significant first.  `n + 1` is always enough
fuel since a number has at most as many digits as its magnitude. -/
def natDigitsRev (n : Nat) : List Char := natDigitsRevAux (n + 1) n

/-- Decimal representation of a natural number (models `str(n)`). -/
def natRepr (n : Nat) : String := String.mk (natDigitsRev n).reverse

example : natRepr 0 = "0" := by decide
example : natRepr 2025 = "2025" := by decide

/-- Rounding of the fraction `a / b` (with `b > 0`) to the nearest integer,
halves away from zero for nonnegative `a`; models the decimal rounding CPython
performs when formatting with a fixed number of decimals. -/
def roundFrac (a : ℤ) (b : ℤ) : ℤ := (2 * a + b) / (2 * b)

/-- The numerator of `q` scaled to tenths and rounded, as an absolute value,
together with the sign.  Models `f"{q:.1f}"` for the constants used in the
source (`RISK_LOWER`, `RISK_UPPER`). -/
def fmtFixed1 (q : ℚ) : String :=
  let n := (roundFrac (q.num.natAbs * 10) q.den).natAbs
  (if q.num < 0 then "-" else "") ++ natRepr (n / 10) ++ "." ++ String.mk [digitChar (n % 10)]

example : fmtFixed1 RISK_LOWER = "5.5" := by decide
example : fmtFixed1 RISK_UPPER = "7.0" := by decide

/-- Models `json.dumps` / `repr` of the two-decimal float constants used as
entry prices (shortest repr drops a trailing zero cent digit). -/
def jsonFloatRepr (q : ℚ) : String :=
  let n := (roundFrac (q.num.natAbs * 100) q.den).natAbs
  (if q.num < 0 then "-" else "") ++ natRepr (n / 100) ++ "." ++
    (if n % 10 = 0 then String.mk [digitChar (n / 10 % 10)]
     else String.mk [digitChar (n / 10 % 10), digitChar (n % 10)])

example : jsonFloatRepr (mkRat 18272 100) = "182.72" := by decide
example : jsonFloatRepr (mkRat 70 10) = "7.0" := by decide

/-! ## Dates (model of the `datetime` value handed to `build_prompt`) -/

/-- The fields of the run timestamp that `build_prompt` consumes through
`strftime("%A, %B %d, %Y")`.  `weekday` follows Python's `date.weekday()`
convention, 0 = Monday. -/
structure PyDate where
  year : Nat
  month : Nat
  day : Nat
  weekday : Nat
deriving DecidableEq

/-- Full weekday name as produced by `strftime("%A")`. -/
def weekdayName : Nat → String
  | 0 => "Monday"
  | 1 => "Tuesday"
  | 2 => "Wednesday"
  | 3 => "Thursday"
  | 4 => "Friday"
  | 5 => "Saturday"
  | _ => "Sunday"

/-- Full month name as produced by `strftime("%B")`. -/
def monthName : Nat → String
  | 1 => "January"
  | 2 => "February"
  | 3 => "March"
  | 4 => "April"
  | 5 => "May"
  | 6 => "June"
  | 7 => "July"
  | 8 => "August"
  | 9 => "September"
  | 10 => "October"
  | 11 => "November"
  | _ => "December"

/-- Zero-padded two-digit field, as `strftime("%d")` produces for the day. -/
def pad2 (n : Nat) : String := String.mk [digitChar (n / 10 % 10), digitChar (n % 10)]

/-- Model of `now_pht.strftime("%A, %B %d, %Y")` (src line 73). -/
def strftimeLong (d : PyDate) : String :=
  weekdayName d.weekday ++ ", " ++ monthName d.month ++ " " ++ pad2 d.day ++
    ", " ++ natRepr d.year

example : strftimeLong ⟨2025, 8, 10, 6⟩ = "Sunday, August 10, 2025" := by decide

/-! ## Prompt Builder (src lines 71-122) -/

/-- One element of `watchlist_items` as serialized by `json.dumps`. -/
def watchlistItemJson (ticker : String) : String :=
  "\x7b\"ticker\": \"" ++ ticker ++
    "\", \"rsi\": \"number\", \"macd\": \"bullish|bearish|neutral\", \"rank\": \"string\", \"action\": \"string\"\x7d"

/-- One element of `open_positions_items` as serialized by `json.dumps`. -/
def openPositionItemJson (p : String × ℚ) : String :=
  "\x7b\"ticker\": \"" ++ p.1 ++ "\", \"entry_price\": " ++ jsonFloatRepr p.2 ++
    ", \"current_price\": \"find current price (number)\"\x7d"

/-- `json.dumps` of a list: elements joined by a comma and a space inside
square brackets. -/
def jsonListDump (items : List String) : String :=
  "[" ++ String.intercalate ", " items ++ "]"

/-- Embedding of `build_prompt` (src lines 71-122): the f-string after
interpolation and `.strip()`.  The `â€“` sequence reproduces
the three literal characters between the two risk percentages in the source
file. -/
def build_prompt (now_pht : PyDate) : String :=
  let date_str := strftimeLong now_pht
  let watchlist_items := WATCHLIST_UNIVERSE.map watchlistItemJson
  let open_positions_items := OPEN_POSITIONS.map openPositionItemJson
  String.intercalate "\n"
    [ "You are a market analyst. Return ONLY valid JSON, no prose, matching this schema exactly:"
    , ""
    , "\x7b"
    , "  \"date\": \"" ++ date_str ++ "\","
    , "  \"market_overview\": \x7b"
    , "    \"sentiment\": \"string\","
    , "    \"indexes\": \x7b\"sp500\": \"string\", \"nasdaq\": \"string\"\x7d,"
    , "    \"news\": [\"string\", \"string\"]"
    , "  \x7d,"
    , "  \"watchlist\": " ++ jsonListDump watchlist_items ++ ","
    , "  \"open_positions\": " ++ jsonListDump open_positions_items ++ ","
    , "  \"journal\": \x7b"
    , "    \"did_right\": [\"string\"],"
    , "    \"improve\": [\"string\"],"
    , "    \"traps\": [\"string\"]"
    , "  \x7d,"
    , "  \"opportunities\": ["
    , "    \x7b"
    , "      \"ticker\": \"identify ticker from universe\","
    , "      \"setup\": \"oversold bounce|breakout|trend continuation\","
    , "      \"entry_hint\": \"string describing entry trigger\""
    , "    \x7d"
    , "  ],"
    , "  \"reminders\": ["
    , "    \"Max risk per trade: " ++ fmtFixed1 RISK_LOWER ++ "%â€“" ++
        fmtFixed1 RISK_UPPER ++ "%\","
    , "    \"Stop-loss discipline check\","
    , "    \"Emotional check-in & predicted mood\""
    , "  ]"
    , "\x7d"
    , ""
    , "Guidance:"
    , "- Watchlist universe: " ++ String.intercalate ", " WATCHLIST_UNIVERSE ++ "."
    , "- For `open_positions`, find the latest price for the given tickers."
    , "- For `opportunities`, identify new trade setups from the watchlist universe."
    , "- Be concise and realistic with indicators."
    , "- Use USD numbers for entries and prices."
    , "- Do not include any text outside JSON."
    ]

/-! ## Currency filter (src lines 213-215) -/

/-- Comma insertion for a digit list given least-significant first: a comma is
emitted after every third digit that is followed by more digits.  Reversing
the result yields the display form with thousands separators, exactly the
grouping `format(value, ",")` performs. -/
def commaRev : List Char → Nat → List Char
  | [], _ => []
  | [c], _ => [c]
  | c :: d :: rest, i =>
      if i % 3 = 2 then c :: ',' :: commaRev (d :: rest) (i + 1)
      else c :: commaRev (d :: rest) (i + 1)

/-- Decimal representation of `n` with thousands separators, as Python's
`f"{n:,}"` produces. -/
def natReprCommas (n : Nat) : String := String.mk (commaRev (natDigitsRev n) 0).reverse

example : natReprCommas 1500 = "1,500" := by decide
example : natReprCommas 182 = "182" := by decide
example : natReprCommas 1234567 = "1,234,567" := by decide

/-- Split a character list at commas. -/
def splitComma : List Char → List (List Char)
  | [] => [[]]
  | c :: rest =>
      if c = ',' then [] :: splitComma rest
      else
        match splitComma rest with
        | [] => [[c]]
        | g :: gs => (c :: g) :: gs

/-- A leading digit group: one to three digits. -/
def groupOkFirst (g : List Char) : Bool :=
  decide (1 ≤ g.length) && decide (g.length ≤ 3) && g.all Char.isDigit

/-- A later digit group: exactly three digits. -/
def groupOkRest (g : List Char) : Bool :=
  decide (g.length = 3) && g.all Char.isDigit

/-- The comma-separated groups form a correctly thousands-grouped number. -/
def groupsOk : List (List Char) → Bool
  | [] => false
  | g :: gs => groupOkFirst g && gs.all groupOkRest

/-- The string is an integer with comma thousands separators: splitting at
commas yields a leading group of one to three digits followed by groups of
exactly three digits. -/
def commaGrouped (s : String) : Bool := groupsOk (splitComma s.data)

example : commaGrouped "1,500" = true := by decide
example : commaGrouped "1500" = false := by decide
example : commaGrouped "182" = true := by decide

/-- Embedding of `to_currency` (src lines 213-215), the registered Jinja
filter `f"${value:,.2f}"`: a dollar sign, the value rounded to two decimals
with thousands separators in the integer part, and exactly two decimal
digits.  The binary-float rounding of CPython is modelled as decimal rounding
of the exact rational value. -/
def to_currency (value : ℚ) : String :=
  let n := (roundFrac (value.num.natAbs * 100) value.den).natAbs
  "$" ++ (if value.num < 0 then "-" else "") ++
    natReprCommas (n / 100) ++ "." ++
    String.mk [digitChar (n / 10 % 10), digitChar (n % 10)]

example : to_currency (mkRat 18272 100) = "$182.72" := by decide
example : to_currency (mkRat 1500 1) = "$1,500.00" := by decide

/-! ## Configuration validation (src lines 58-65) -/

/-- Embedding of `_require_env` (src lines 58-61): Python's `not value` is
true both for a missing variable (`None`) and for an empty string. -/
def _require_env (var_name : String) (value : Option String) : Except String String :=
  match value with
  | none => .error ("Missing required environment variable: " ++ var_name)
  | some s =>
      if s = "" then .error ("Missing required environment variable: " ++ var_name)
      else .ok s

/-- The three required environment variables read at module load
(src lines 25-27). -/
structure EnvVars where
  OPENAI_API_KEY : Option String
  EMAIL_USER : Option String
  GMAIL_APP_PASSWORD : Option String

/-- The validated required configuration. -/
structure AppConfig where
  openai_api_key : String
  email_user : String
  gmail_app_password : String

/-- The module-level `_require_env` calls (src lines 63-65), run at startup
before `daily_job`: the first missing or empty required variable raises. -/
def validateConfig (e : EnvVars) : Except String AppConfig :=
  match _require_env "OPENAI_API_KEY" e.OPENAI_API_KEY with
  | .error m => .error m
  | .ok k =>
      match _require_env "EMAIL_USER" e.EMAIL_USER with
      | .error m => .error m
      | .ok u =>
          match _require_env "GMAIL_APP_PASSWORD" e.GMAIL_APP_PASSWORD with
          | .error m => .error m
          | .ok p => .ok ⟨k, u, p⟩

/-- A required environment value is absent when the variable is unset or
bound to the empty string (Python's `not value`). -/
def missingEnvValue (v : Option String) : Prop := v = none ∨ v = some ""

/-! ## Orchestrator (src lines 217-236) -/

/-- Terminal state of one run: the email was delivered, or the run aborted
with an uncaught error (a non-zero process outcome). -/
inductive RunOutcome where
  | delivered
  | failed (msg : String)
deriving DecidableEq, Repr

/-- The external collaborators of one run, as stubs: the generative model
(keyed by the prompt it receives), the Jinja template engine, and the SMTP
transport (keyed by attempt index). -/
structure RunStub where
  now : PyDate
  model : String → ModelResponse
  render : JValue → Except String String
  transport : Nat → Option String

/-- Observable result of one run: the terminal outcome plus how many model
calls, template renders and transport attempts were made. -/
structure RunResult where
  outcome : RunOutcome
  modelCalls : Nat
  renderCalls : Nat
  sendAttempts : Nat
deriving DecidableEq, Repr

/-- Embedding of `daily_job` (src lines 217-233): build the prompt, fetch the
briefing, render the template, send the email — strictly in sequence, any
uncaught exception aborting the run at that point. -/
def daily_job (env : RunStub) : RunResult :=
  let prompt := build_prompt env.now
  match get_market_briefing_data (env.model prompt) with
  | .error e => ⟨.failed e, 1, 0, 0⟩
  | .ok data =>
      match env.render data with
      | .error e => ⟨.failed e, 1, 1, 0⟩
      | .ok _html =>
          match send_email env.transport with
          | .sent n _ => ⟨.delivered, 1, 1, n⟩
          | .failed n _ m => ⟨.failed m, 1, 1, n⟩

/-- Network calls observable from a process run: zero when startup validation
already failed. -/
def callsMade : Except String RunResult → Nat
  | .error _ => 0
  | .ok r => r.modelCalls + r.sendAttempts

/-- The process entry: module-level configuration validation runs first
(src lines 63-65); only if it passes does `daily_job` run (src lines 235-236). -/
def mainRun (e : EnvVars) (r : RunStub) : Except String RunResult :=
  match validateConfig e with
  | .error m => .error m
  | .ok _ => .ok (daily_job r)

/-! ## The Schema Contract the specification prescribes

The source performs no response validation (see `get_market_briefing_data`).
The following checker follows the specification's words — all required keys
present at every nesting level, `macd` and `setup` restricted to their
enumerations, numeric fields numeric, and the ticker-membership invariants —
and exists to state precisely how the code diverges from the spec. -/

/-- Lookup of a key in a JSON object's field list. -/
def getField : List (String × JValue) → String → Option JValue
  | [], _ => none
  | (k, v) :: rest, key => if k = key then some v else getField rest key

/-- Is the value a JSON string. -/
def isStr : JValue → Bool
  | .str _ => true
  | _ => false

/-- Is the value a JSON number. -/
def isNum : JValue → Bool
  | .num _ => true
  | _ => false

/-- The object has key `k` bound to a string. -/
def strField (f : List (String × JValue)) (k : String) : Bool :=
  match getField f k with
  | some (.str _) => true
  | _ => false

/-- The object has key `k` bound to a number. -/
def numField (f : List (String × JValue)) (k : String) : Bool :=
  match getField f k with
  | some (.num _) => true
  | _ => false

/-- The object has key `k` bound to an array of strings. -/
def strArrField (f : List (String × JValue)) (k : String) : Bool :=
  match getField f k with
  | some (.arr xs) => xs.all isStr
  | _ => false

/-- A `watchlist` entry per the spec: required keys, `macd` in its
enumeration, `rsi` numeric, and the ticker drawn from the configured
watchlist universe. -/
def validWatchlistEntry : JValue → Bool
  | .obj f =>
      (match getField f "ticker" with
       | some (.str t) => WATCHLIST_UNIVERSE.contains t
       | _ => false) &&
      numField f "rsi" &&
      (match getField f "macd" with
       | some (.str m) => m == "bullish" || m == "bearish" || m == "neutral"
       | _ => false) &&
      strField f "rank" && strField f "action"
  | _ => false

/-- An `open_positions` entry per the spec: required keys, numeric prices,
and the ticker drawn from the configured open-positions set. -/
def validPositionEntry : JValue → Bool
  | .obj f =>
      (match getField f "ticker" with
       | some (.str t) => (OPEN_POSITIONS.map Prod.fst).contains t
       | _ => false) &&
      numField f "entry_price" && numField f "current_price"
  | _ => false

/-- An `opportunities` entry per the spec: required keys and `setup` in its
enumeration. -/
def validOpportunity : JValue → Bool
  | .obj f =>
      strField f "ticker" &&
      (match getField f "setup" with
       | some (.str s) =>
           s == "oversold bounce" || s == "breakout" || s == "trend continuation"
       | _ => false) &&
      strField f "entry_hint"
  | _ => false

/-- Validation prescribed by the specification's Schema Contract: required
keys at every nesting level, enumerations, numeric fields, ticker
membership.  Modelled from the spec; the source has no counterpart. -/
def specSchemaValid : JValue → Bool
  | .obj f =>
      strField f "date" &&
      (match getField f "market_overview" with
       | some (.obj mo) =>
           strField mo "sentiment" &&
           (match getField mo "indexes" with
            | some (.obj ix) => ix.all fun p => isStr p.2
            | _ => false) &&
           strArrField mo "news"
       | _ => false) &&
      (match getField f "watchlist" with
       | some (.arr ws) => ws.all validWatchlistEntry
       | _ => false) &&
      (match getField f "open_positions" with
       | some (.arr ps) => ps.all validPositionEntry
       | _ => false) &&
      (match getField f "journal" with
       | some (.obj j) =>
           strArrField j "did_right" && strArrField j "improve" && strArrField j "traps"
       | _ => false) &&
      (match getField f "opportunities" with
       | some (.arr os) => os.all validOpportunity
       | _ => false) &&
      strArrField f "reminders"
  | _ => false

/-- A briefing document that is syntactically valid JSON but violates the
ticker-membership invariant: its single watchlist entry carries the ticker
TSLA, which is outside the configured universe.  Every other field satisfies
the Schema Contract. -/
def tslaWatchlistDoc : JValue :=
  .obj
    [ ("date", .str "Sunday, August 10, 2025")
    , ("market_overview", .obj
        [ ("sentiment", .str "Slightly Bullish")
        , ("indexes", .obj [("sp500", .str "+0.5%"), ("nasdaq", .str "+1.2%")])
        , ("news", .arr [.str "Quiet session."])
        ])
    , ("watchlist", .arr
        [ .obj
            [ ("ticker", .str "TSLA")
            , ("rsi", .num 55)
            , ("macd", .str "bullish")
            , ("rank", .str "Good")
            , ("action", .str "Buy")
            ]
        ])
    , ("open_positions", .arr [])
    , ("journal", .obj
        [ ("did_right", .arr [.str "Held conviction"])
        , ("improve", .arr [.str "Risk management"])
        , ("traps", .arr [.str "Chasing candles"])
        ])
    , ("opportunities", .arr [])
    , ("reminders", .arr [.str "Stop-loss discipline check"])
    ]

/-! # Theorems -/

/-! ## Helper lemmas -/

theorem digitChar_isDigit {d : Nat} (h : d < 10) : (digitChar d).isDigit = true := by
  interval_cases d <;> decide

theorem digitChar_ne_comma {d : Nat} (h : d < 10) : digitChar d ≠ ',' := by
  interval_cases d <;> decide

theorem natDigitsRevAux_all_digit :
    ∀ fuel n, (natDigitsRevAux fuel n).all Char.isDigit = true := by
  intro fuel
  induction fuel with
  | zero => intro n; rfl
  | succ f ih =>
    intro n
    unfold natDigitsRevAux
    by_cases h : n < 10
    · simp [h, digitChar_isDigit h]
    · simp [h, digitChar_isDigit (Nat.mod_lt n (by omega)), ih]

theorem natDigitsRev_all_digit (n : Nat) : (natDigitsRev n).all Char.isDigit = true :=
  natDigitsRevAux_all_digit (n + 1) n

theorem natDigitsRev_ne_nil (n : Nat) : natDigitsRev n ≠ [] := by
  unfold natDigitsRev natDigitsRevAux
  by_cases h : n < 10 <;> simp [h]

theorem digit_ne_comma {c : Char} (h : c.isDigit = true) : c ≠ ',' := by
  intro hc
  subst hc
  exact absurd h (by decide)

theorem splitComma_ne_nil : ∀ l : List Char, splitComma l ≠ [] := by
  intro l
  induction l with
  | nil => simp [splitComma]
  | cons c rest ih =>
    unfold splitComma
    by_cases h : c = ','
    · simp [h]
    · simp only [h, if_false]
      cases hs : splitComma rest with
      | nil => simp
      | cons g gs => simp

theorem splitComma_no_comma : ∀ l : List Char, (∀ c ∈ l, c ≠ ',') → splitComma l = [l] := by
  intro l
  induction l with
  | nil => intro _; rfl
  | cons c rest ih =>
    intro h
    have hc : c ≠ ',' := h c (by simp)
    have hrest := ih fun x hx => h x (by simp [hx])
    simp [splitComma, hc, hrest]

theorem splitComma_append : ∀ xs ys : List Char,
    splitComma (xs ++ ',' :: ys) = splitComma xs ++ splitComma ys := by
  intro xs
  induction xs with
  | nil => intro ys; simp [splitComma]
  | cons c rest ih =>
    intro ys
    by_cases hc : c = ','
    · subst hc; simp [splitComma, ih]
    · simp only [List.cons_append, splitComma, hc, if_false]
      cases hs : splitComma rest with
      | nil => exact absurd hs (splitComma_ne_nil rest)
      | cons g gs => simp only [List.append_eq]; rw [ih, hs]; simp

theorem groupsOk_append_last (A : List (List Char)) (g : List Char)
    (hA : groupsOk A = true) (hg : groupOkRest g = true) :
    groupsOk (A ++ [g]) = true := by
  cases A with
  | nil => simp [groupsOk] at hA
  | cons g0 gs =>
    simp only [groupsOk, Bool.and_eq_true] at hA
    simp [groupsOk, List.all_append, hA.1, hA.2, hg]

theorem commaRev_mod : ∀ (l : List Char) (i j : Nat), i % 3 = j % 3 →
    commaRev l i = commaRev l j := by
  intro l
  induction l with
  | nil => intros; rfl
  | cons a rest ih =>
    intro i j h
    cases rest with
    | nil => rfl
    | cons b rs =>
      have h1 : (i + 1) % 3 = (j + 1) % 3 := by omega
      unfold commaRev
      by_cases hi : i % 3 = 2
      · have hj : j % 3 = 2 := by omega
        simp [hi, hj, ih (i + 1) (j + 1) h1]
      · have hj : ¬j % 3 = 2 := by omega
        simp [hi, hj, ih (i + 1) (j + 1) h1]

theorem commaRev_step (a b c r : Char) (rs : List Char) :
    commaRev (a :: b :: c :: r :: rs) 0 = a :: b :: c :: ',' :: commaRev (r :: rs) 0 := by
  have h3 := commaRev_mod (r :: rs) 3 0 (by omega)
  simp [commaRev, h3]

theorem commaRev_groupsOk : ∀ l : List Char, l ≠ [] → l.all Char.isDigit = true →
    groupsOk (splitComma (commaRev l 0).reverse) = true
  | [], h, _ => absurd rfl h
  | [a], _, hd => by
      simp only [List.all_cons, List.all_nil, Bool.and_true] at hd
      have := splitComma_no_comma [a] (by simp [digit_ne_comma hd])
      simp [commaRev, this, groupsOk, groupOkFirst, hd]
  | [a, b], _, hd => by
      simp only [List.all_cons, List.all_nil, Bool.and_eq_true, Bool.and_true] at hd
      have := splitComma_no_comma [b, a]
        (by simp [digit_ne_comma hd.1, digit_ne_comma hd.2])
      simp [commaRev, this, groupsOk, groupOkFirst, hd.1, hd.2]
  | [a, b, c], _, hd => by
      simp only [List.all_cons, List.all_nil, Bool.and_eq_true, Bool.and_true] at hd
      have := splitComma_no_comma [c, b, a]
        (by simp [digit_ne_comma hd.1, digit_ne_comma hd.2.1, digit_ne_comma hd.2.2])
      simp [commaRev, this, groupsOk, groupOkFirst, hd.1, hd.2.1, hd.2.2]
  | a :: b :: c :: d :: rest, _, hd => by
      simp only [List.all_cons, Bool.and_eq_true] at hd
      obtain ⟨ha, hb, hc, hrest⟩ := hd
      have hrest' : (d :: rest).all Char.isDigit = true := by
        simp only [List.all_cons, Bool.and_eq_true]
        exact hrest
      have ihs := commaRev_groupsOk (d :: rest) (by simp) hrest'
      have hrev : (a :: b :: c :: ',' :: commaRev (d :: rest) 0).reverse
          = (commaRev (d :: rest) 0).reverse ++ ',' :: [c, b, a] := by
        simp
      have hlast := splitComma_no_comma [c, b, a]
        (by simp [digit_ne_comma hc, digit_ne_comma hb, digit_ne_comma ha])
      rw [commaRev_step, hrev, splitComma_append, hlast]
      exact groupsOk_append_last _ _ ihs (by simp [groupOkRest, hc, hb, ha])

theorem natReprCommas_grouped (n : Nat) : commaGrouped (natReprCommas n) = true :=
  commaRev_groupsOk (natDigitsRev n) (natDigitsRev_ne_nil n) (natDigitsRev_all_digit n)

theorem send_email_loop_congr : ∀ (fuel a : Nat) (w : List Nat) (t t' : Nat → Option String),
    (∀ n, a ≤ n → n < a + fuel → t n = t' n) →
    send_email_loop t fuel a w = send_email_loop t' fuel a w := by
  intro fuel
  induction fuel with
  | zero => intros; rfl
  | succ f ih =>
    intro a w t t' h
    unfold send_email_loop
    rw [h a (le_refl a) (by omega)]
    cases t' a with
    | none => rfl
    | some e => exact ih (a + 1) _ t t' fun n h1 h2 => h n (by omega) (by omega)

theorem require_env_missing (name : String) (v : Option String) (h : missingEnvValue v) :
    _require_env name v = .error ("Missing required environment variable: " ++ name) := by
  rcases h with h | h <;> simp [_require_env, h]

theorem require_env_present (name : String) (v : Option String) (h : ¬missingEnvValue v) :
    ∃ s, _require_env name v = .ok s := by
  rcases v with _ | s
  · exact absurd (Or.inl rfl) h
  · have hs : ¬s = "" := fun hs => h (Or.inr (by rw [hs]))
    exact ⟨s, by simp [_require_env, hs]⟩

/-! ## Claim theorems -/

/-- C1 (counterexample): the empty JSON object is missing every required key
of the Schema Contract, yet the fetch operation returns it as a valid
briefing document instead of failing with a `SchemaViolation`. -/
theorem fetch_accepts_schema_invalid_json :
    specSchemaValid (.obj []) = false ∧
    get_market_briefing_data (.content (some (.obj []))) = .ok (.obj []) :=
  ⟨rfl, rfl⟩

/-- C1 (amended): the fetch operation performs no schema validation — every
model response that parses as JSON is returned unchanged as the briefing
document, whatever its shape, and no `SchemaViolation` failure distinct from
the generic fetch error exists in the code. -/
theorem fetch_returns_any_parsed_json (j : JValue) :
    get_market_briefing_data (.content (some j)) = .ok j := rfl

/-- C2 (counterexample): a document whose single watchlist entry carries the
ticker TSLA — outside the configured universe, hence rejected by the
spec-prescribed validation — is accepted by the fetch operation and passed
onward: the run renders it and delivers it (terminal state `delivered`, one
render, one transport attempt). -/
theorem ticker_outside_universe_reaches_delivery :
    WATCHLIST_UNIVERSE.contains "TSLA" = false ∧
    specSchemaValid tslaWatchlistDoc = false ∧
    daily_job ⟨⟨2025, 8, 10, 6⟩, fun _ => .content (some tslaWatchlistDoc),
      fun _ => .ok "<html/>", fun _ => none⟩ = ⟨.delivered, 1, 1, 1⟩ :=
  ⟨rfl, rfl, rfl⟩

/-- C2 (amended): no ticker-membership validation exists: whatever JSON
document the model returns — its watchlist and open-positions tickers
included — is passed onward to rendering and delivery. -/
theorem daily_job_passes_any_parsed_json_onward (j : JValue) (html : String) :
    daily_job ⟨⟨2025, 8, 10, 6⟩, fun _ => .content (some j),
      fun _ => .ok html, fun _ => none⟩ = ⟨.delivered, 1, 1, 1⟩ := rfl

/-- C3 (counterexample): with a transport that always fails carrying the
error `SMTPAuthenticationError`, the exhaustion failure is the fixed message
`Failed to send email after retries.` — identical to the outcome under a
transport failing with a different error — so the raised error does not
carry the last underlying transport error. -/
theorem send_failure_error_not_carried :
    send_email (fun _ => some "SMTPAuthenticationError") =
      send_email (fun _ => some "SMTPConnectError") ∧
    send_email (fun _ => some "SMTPAuthenticationError") =
      .failed 5 [1, 2, 4, 8, 16] "Failed to send email after retries." :=
  ⟨rfl, by decide⟩

/-- C3 (amended): if the transport fails on every attempt, `send_email`
raises after exactly 5 attempts with the fixed message
`Failed to send email after retries.` (not carrying the underlying error),
and the outcome depends only on the first 5 transport attempts — no 6th
attempt is ever consulted. -/
theorem send_exhaustion_fixed_error_after_five_attempts :
    (∀ t : Nat → Option String, (∀ n, n < 5 → (t n).isSome = true) →
      ∃ w, send_email t = .failed 5 w "Failed to send email after retries.") ∧
    (∀ t t' : Nat → Option String, (∀ n, n < 5 → t n = t' n) →
      send_email t = send_email t') := by
  constructor
  · intro t h
    obtain ⟨e0, h0⟩ := Option.isSome_iff_exists.mp (h 0 (by omega))
    obtain ⟨e1, h1⟩ := Option.isSome_iff_exists.mp (h 1 (by omega))
    obtain ⟨e2, h2⟩ := Option.isSome_iff_exists.mp (h 2 (by omega))
    obtain ⟨e3, h3⟩ := Option.isSome_iff_exists.mp (h 3 (by omega))
    obtain ⟨e4, h4⟩ := Option.isSome_iff_exists.mp (h 4 (by omega))
    exact ⟨[1, 2, 4, 8, 16], by simp [send_email, send_email_loop, h0, h1, h2, h3, h4]⟩
  · intro t t' h
    exact send_email_loop_congr 5 0 [] t t' fun n _ h2 => h n (by omega)

/-- C3 (witness). -/
theorem send_exhaustion_fixed_error_after_five_attempts_witness :
    (∃ w, send_email (fun _ => some "SMTPAuthenticationError") =
      .failed 5 w "Failed to send email after retries.") ∧
    send_email (fun n => if n < 5 then some "boom" else none) =
      send_email (fun n => if n < 5 then some "boom" else some "other") :=
  ⟨send_exhaustion_fixed_error_after_five_attempts.1 _ fun _ _ => rfl,
   send_exhaustion_fixed_error_after_five_attempts.2 _ _ fun n hn => by
     interval_cases n <;> rfl⟩

/-- C4: if the transport fails the first 4 attempts and succeeds on the 5th,
`send_email` succeeds after exactly 5 attempts with exactly the 4 backoff
waits 1, 2, 4, 8 in order, stopping immediately after the success. -/
theorem send_succeeds_on_fifth_attempt (t : Nat → Option String)
    (h : ∀ n, n < 4 → (t n).isSome = true) (h4 : t 4 = none) :
    send_email t = .sent 5 [1, 2, 4, 8] := by
  obtain ⟨e0, h0⟩ := Option.isSome_iff_exists.mp (h 0 (by omega))
  obtain ⟨e1, h1⟩ := Option.isSome_iff_exists.mp (h 1 (by omega))
  obtain ⟨e2, h2⟩ := Option.isSome_iff_exists.mp (h 2 (by omega))
  obtain ⟨e3, h3⟩ := Option.isSome_iff_exists.mp (h 3 (by omega))
  simp [send_email, send_email_loop, h0, h1, h2, h3, h4]

/-- C4 (witness). -/
theorem send_succeeds_on_fifth_attempt_witness :
    send_email (fun n => if n < 4 then some "SMTPServerDisconnected" else none) =
      .sent 5 [1, 2, 4, 8] :=
  send_succeeds_on_fifth_attempt _ (fun n hn => by interval_cases n <;> rfl) rfl

/-- C5 (counterexample): a failure of the external call and a response that
is not parseable as JSON produce the very same error value — a single
undifferentiated `RuntimeError("Failed to fetch dynamic data.")` — so the
three failure kinds the spec names are not distinguishable outcomes. -/
theorem fetch_call_and_parse_failures_indistinguishable :
    get_market_briefing_data (.callFailure "APIConnectionError") =
      get_market_briefing_data (.content none) ∧
    get_market_briefing_data (.callFailure "APIConnectionError") =
      .error "Failed to fetch dynamic data." :=
  ⟨rfl, rfl⟩

/-- C5 (amended): the fetch operation collapses every failure — external
call error or unparseable response — into the single error
`Failed to fetch dynamic data.`, and raises nothing at all for JSON that
fails the schema (see C1). -/
theorem fetch_single_undifferentiated_error :
    (∀ e, get_market_briefing_data (.callFailure e) =
      .error "Failed to fetch dynamic data.") ∧
    get_market_briefing_data (.content none) = .error "Failed to fetch dynamic data." :=
  ⟨fun _ => rfl, rfl⟩

/-- C6: if fetching fails, or fetching succeeds and rendering fails, no
transport attempt is made (`sendAttempts = 0`) and the run terminates in the
failed state carrying that error; prompt building is a total function and
cannot fail. -/
theorem daily_job_no_send_on_early_failure (env : RunStub) :
    (∀ e, get_market_briefing_data (env.model (build_prompt env.now)) = .error e →
      daily_job env = ⟨.failed e, 1, 0, 0⟩) ∧
    (∀ doc e, get_market_briefing_data (env.model (build_prompt env.now)) = .ok doc →
      env.render doc = .error e → daily_job env = ⟨.failed e, 1, 1, 0⟩) := by
  constructor
  · intro e he
    simp [daily_job, he]
  · intro doc e hd he
    simp [daily_job, hd, he]

/-- C6 (witness). -/
theorem daily_job_no_send_on_early_failure_witness :
    daily_job ⟨⟨2025, 8, 10, 6⟩, fun _ => .callFailure "rate limit",
      fun _ => .ok "<html/>", fun _ => none⟩ =
      ⟨.failed "Failed to fetch dynamic data.", 1, 0, 0⟩ :=
  (daily_job_no_send_on_early_failure _).1 "Failed to fetch dynamic data." rfl

/-- C7: the Prompt Builder is a pure function of the briefing request data
(here, the run timestamp consumed through `strftime`; watchlist, positions
and risk band are fixed configuration): identical input yields an identical
prompt string. -/
theorem build_prompt_deterministic (d1 d2 : PyDate) (h : d1 = d2) :
    build_prompt d1 = build_prompt d2 := by rw [h]

/-- C7 (witness). -/
theorem build_prompt_deterministic_witness :
    build_prompt ⟨2025, 8, 10, 6⟩ = build_prompt ⟨2025, 8, 10, 6⟩ :=
  build_prompt_deterministic ⟨2025, 8, 10, 6⟩ ⟨2025, 8, 10, 6⟩ rfl

/-- C9: when any of the three required configuration values is unset or
empty, startup validation fails with a `Missing required environment
variable` error before the pipeline runs, and no network call (model call or
transport attempt) is ever made. -/
theorem missing_config_fatal_before_any_network_call (e : EnvVars) (r : RunStub)
    (h : missingEnvValue e.OPENAI_API_KEY ∨ missingEnvValue e.EMAIL_USER ∨
      missingEnvValue e.GMAIL_APP_PASSWORD) :
    (∃ name, mainRun e r = .error ("Missing required environment variable: " ++ name)) ∧
    callsMade (mainRun e r) = 0 := by
  have key : ∃ name, validateConfig e =
      .error ("Missing required environment variable: " ++ name) := by
    by_cases h1 : missingEnvValue e.OPENAI_API_KEY
    · exact ⟨"OPENAI_API_KEY", by simp [validateConfig, require_env_missing _ _ h1]⟩
    · obtain ⟨s1, hs1⟩ := require_env_present "OPENAI_API_KEY" _ h1
      by_cases h2 : missingEnvValue e.EMAIL_USER
      · exact ⟨"EMAIL_USER", by simp [validateConfig, hs1, require_env_missing _ _ h2]⟩
      · obtain ⟨s2, hs2⟩ := require_env_present "EMAIL_USER" _ h2
        have h3 : missingEnvValue e.GMAIL_APP_PASSWORD := by
          rcases h with h | h | h
          · exact absurd h h1
          · exact absurd h h2
          · exact h
        exact ⟨"GMAIL_APP_PASSWORD",
          by simp [validateConfig, hs1, hs2, require_env_missing _ _ h3]⟩
  obtain ⟨name, hv⟩ := key
  exact ⟨⟨name, by simp [mainRun, hv]⟩, by simp [mainRun, callsMade, hv]⟩

/-- C9 (witness). -/
theorem missing_config_fatal_before_any_network_call_witness :
    (∃ name, mainRun ⟨none, some "user@example.com", some "app-password"⟩
      ⟨⟨2025, 8, 10, 6⟩, fun _ => .callFailure "net", fun _ => .ok "", fun _ => none⟩ =
      .error ("Missing required environment variable: " ++ name)) ∧
    callsMade (mainRun ⟨none, some "user@example.com", some "app-password"⟩
      ⟨⟨2025, 8, 10, 6⟩, fun _ => .callFailure "net", fun _ => .ok "", fun _ => none⟩) = 0 :=
  missing_config_fatal_before_any_network_call _ _ (Or.inl (Or.inl rfl))

/-- C10: when all 5 transport attempts fail, the code performs 5 backoff
waits of 1, 2, 4, 8 and 16 time units — the `time.sleep` sits inside the
`except` block, so a final 16-unit wait happens after the 5th failure too,
before the exhaustion error is raised. -/
theorem send_exhaustion_waits_include_final (t : Nat → Option String)
    (h : ∀ n, n < 5 → (t n).isSome = true) :
    send_email t = .failed 5 [1, 2, 4, 8, 16] "Failed to send email after retries." := by
  obtain ⟨e0, h0⟩ := Option.isSome_iff_exists.mp (h 0 (by omega))
  obtain ⟨e1, h1⟩ := Option.isSome_iff_exists.mp (h 1 (by omega))
  obtain ⟨e2, h2⟩ := Option.isSome_iff_exists.mp (h 2 (by omega))
  obtain ⟨e3, h3⟩ := Option.isSome_iff_exists.mp (h 3 (by omega))
  obtain ⟨e4, h4⟩ := Option.isSome_iff_exists.mp (h 4 (by omega))
  simp [send_email, send_email_loop, h0, h1, h2, h3, h4]

theorem digitChar_mod_isDigit (n : Nat) : (digitChar (n % 10)).isDigit = true :=
  digitChar_isDigit (Nat.mod_lt n (by omega))

/-- C8: for every nonnegative price, `to_currency` yields a dollar sign, an
integer part with comma thousands separators, and exactly two decimal
digits; in particular 182.72, 530.26 and 1500 format as the spec's examples
state. -/
theorem to_currency_currency_format :
    (∀ q : ℚ, 0 ≤ q → ∃ intPart fracPart : String,
        to_currency q = "$" ++ intPart ++ "." ++ fracPart ∧
        commaGrouped intPart = true ∧
        fracPart.length = 2 ∧ fracPart.data.all Char.isDigit = true) ∧
    to_currency (182.72 : ℚ) = "$182.72" ∧
    to_currency (530.26 : ℚ) = "$530.26" ∧
    to_currency (1500 : ℚ) = "$1,500.00" := by
  refine ⟨?_, ?_, ?_, ?_⟩
  · intro q hq
    have hnum : ¬q.num < 0 := by
      have := Rat.num_nonneg.mpr hq
      omega
    refine ⟨natReprCommas ((roundFrac (q.num.natAbs * 100) q.den).natAbs / 100),
      String.mk [digitChar ((roundFrac (q.num.natAbs * 100) q.den).natAbs / 10 % 10),
        digitChar ((roundFrac (q.num.natAbs * 100) q.den).natAbs % 10)],
      ?_, natReprCommas_grouped _, rfl, by simp [digitChar_mod_isDigit]⟩
    simp only [to_currency]
    rw [if_neg hnum]
    exact rfl
  · have e : (182.72 : ℚ) = mkRat 18272 100 := by norm_num [Rat.mkRat_eq_div]
    rw [e]; decide
  · have e : (530.26 : ℚ) = mkRat 53026 100 := by norm_num [Rat.mkRat_eq_div]
    rw [e]; decide
  · have e : (1500 : ℚ) = mkRat 1500 1 := by norm_num [Rat.mkRat_eq_div]
    rw [e]; decide

/-- C8 (witness). -/
theorem to_currency_currency_format_witness :
    ∃ intPart fracPart : String,
      to_currency (0 : ℚ) = "$" ++ intPart ++ "." ++ fracPart ∧
      commaGrouped intPart = true ∧
      fracPart.length = 2 ∧ fracPart.data.all Char.isDigit = true :=
  to_currency_currency_format.1 0 (le_refl 0)

/-- C10 (witness). -/
theorem send_exhaustion_waits_include_final_witness :
    send_email (fun _ => some "SMTPAuthError") =
      .failed 5 [1, 2, 4, 8, 16] "Failed to send email after retries." :=
  send_exhaustion_waits_include_final _ fun _ _ => rfl
